import Mathlib

/-!
Verification of the mlmbackend withdrawal/auth/catalog backend.

Shallow embedding of the JavaScript sources:
* `models/user.model.js` — the `withdrawalRequestSchema` and `userSchema`
  (pre-save password hook, token generation methods);
* `src/controllers/admin.controller.js` — the admin controllers
  (`updateWithdrawalStatusByAdmin`, `getAllUserWithdrawalsForAdmin`,
  `addProduct`, `addEvent`, `updateEvent`);
* `routes/admin.routes.js` — the admin route table.

Request bodies are modelled with `Option String` fields (`none` = the field is
absent from the request, i.e. JavaScript `undefined`); the persistent store is
an explicit list of documents threaded through each operation; thrown
`ApiError`s, early `res.status(...)` returns and unhandled JavaScript
exceptions are three distinct constructors of `Outcome`.
-/

namespace Mlm

/-- JavaScript truthiness test `!x` for an optional string:
`undefined`/`null` and the empty string are falsy. -/
def jsFalsy : Option String → Bool
  | none => true
  | some s => s = ""

/-- Result of one controller call, paired where needed with the new store.
`apiError` is a thrown `ApiError(code, msg)`; `response` is an early
`res.status(code).json(...)` return; `jsError` is an unhandled JavaScript
runtime exception (escapes to the generic 500 wrapper). -/
inductive Outcome (α : Type) where
  | ok : α → Outcome α
  | apiError : Nat → String → Outcome α
  | response : Nat → String → Outcome α
  | jsError : String → Outcome α
  deriving DecidableEq, Repr

/-- The response envelope built by the `ApiResponse` class:
`{ statusCode, data, message }` (the `success` flag is derived from the code). -/
structure ApiResponse (α : Type) where
  statusCode : Nat
  data : α
  message : String
  deriving DecidableEq, Repr

/-- A document of `withdrawalRequestSchema` (models/user.model.js).
`dateTime` is the creation timestamp (schema default `Date.now`), kept
abstract as a number; `status` is the raw string stored in the document. -/
structure WithdrawalRequest where
  id : String
  address : String
  amount : Int
  finalAmount : Int
  username : String
  mobile : String
  dateTime : Nat
  status : String
  deriving DecidableEq, Repr

/-- The declared value domain of `withdrawalRequestSchema.status`:
`enum: ['Pending', 'Approved', 'Rejected']` (models/user.model.js). -/
def statusEnum : List String := ["Pending", "Approved", "Rejected"]

/-- Mongoose document construction for `withdrawalRequestAmount`: a supplied
`status` is stored as given, an absent one gets the schema default
`'Pending'` (models/user.model.js, `withdrawalRequestSchema.status`). -/
def mkWithdrawalRequest (id : String) (address : String) (amount finalAmount : Int)
    (username mobile : String) (now : Nat) (status : Option String) : WithdrawalRequest :=
  { id := id, address := address, amount := amount, finalAmount := finalAmount,
    username := username, mobile := mobile, dateTime := now,
    status := status.getD "Pending" }

/-- Modelled from the spec: `submit(user, address, amount, finalAmount)`
(`processWithdrawal` in user.controller.js, which is not under src/) creates a
withdrawal record without supplying a status, so the schema default of
`withdrawalRequestSchema` (models/user.model.js, which is under src/) applies. -/
def submitWithdrawal (id : String) (address : String) (amount finalAmount : Int)
    (username mobile : String) (now : Nat) : WithdrawalRequest :=
  mkWithdrawalRequest id address amount finalAmount username mobile now none

/-- Embedding of `withdrawalRequestAmount.findByIdAndUpdate(id, { status }, { new: true })`:
updates the (first) document whose `_id` matches and returns the updated
document, or `none` when no document matches; update validators are not run,
so the new status is stored verbatim. -/
def findByIdAndUpdateStatus : List WithdrawalRequest → String → String →
    Option WithdrawalRequest × List WithdrawalRequest
  | [], _, _ => (none, [])
  | w :: rest, i, s =>
    if w.id = i then
      (some { w with status := s }, ({ w with status := s } : WithdrawalRequest) :: rest)
    else
      let p := findByIdAndUpdateStatus rest i s
      (p.1, w :: p.2)

/-- Embedding of `updateWithdrawalStatusByAdmin` (admin.controller.js, lines 344-373):
validates `id` and `status` from the body, allows only `'Approved'` and
`'Cancelled by Admin'`, then updates the matching record with no check of its
current status. Returns the store after the call together with the outcome. -/
def updateWithdrawalStatusByAdmin (store : List WithdrawalRequest)
    (id status : Option String) : List WithdrawalRequest × Outcome WithdrawalRequest :=
  if jsFalsy id then
    (store, Outcome.apiError 400 "Withdrawal request ID is required")
  else if jsFalsy status then
    (store, Outcome.apiError 400 "Status is required")
  else
    let s := status.getD ""
    if s ≠ "Approved" ∧ s ≠ "Cancelled by Admin" then
      (store, Outcome.apiError 400
        "Invalid status value. Status must be either \"Rejected\" or \"Cancelled by Admin\"")
    else
      let p := findByIdAndUpdateStatus store (id.getD "") s
      match p.1 with
      | none => (p.2, Outcome.apiError 404 "Withdrawal request not found")
      | some w => (p.2, Outcome.ok w)

/-- Embedding of `getAllUserWithdrawalsForAdmin` (admin.controller.js, lines 326-342):
`find()` returns every request; an empty result answers 404, otherwise 200
with the full list. -/
def getAllUserWithdrawalsForAdmin (store : List WithdrawalRequest) :
    ApiResponse (List WithdrawalRequest) :=
  if store.length = 0 then
    { statusCode := 404, data := [], message := "No withdrawal requests found" }
  else
    { statusCode := 200, data := store, message := "Withdrawal requests retrieved successfully" }

/-- The terminal statuses of the withdrawal state machine as the spec names
them. -/
def terminalStatuses : List String := ["Approved", "Rejected", "Cancelled by Admin"]

/-- A document of `userSchema` (models/user.model.js). `id` is the Mongo
`_id`; optional schema fields keep their `null` defaults as `none`. -/
structure UserDoc where
  id : String
  username : String
  email : String
  fullName : String
  mobileNo : Nat
  password : String
  sharedId : String
  refreshToken : Option String
  avatar : Option String
  otp : Option Nat
  otpValidity : Option Nat
  currency : String
  deriving DecidableEq, Repr

/-- Modelled from the spec: `bcrypt.hash(password, saltRounds)` (external
`bcrypt` library). The model keeps the two facts the core relies on: the
output is a `$2b$<cost>$...` formatted digest string, and it is never equal
to the plaintext input (it is strictly longer). The cryptographic content of
the digest is abstracted as the plaintext itself. -/
def bcryptHash (saltRounds : Nat) (password : String) : String :=
  "$2b$" ++ toString saltRounds ++ "$" ++ password

/-- The `userSchema.pre("save")` hook (models/user.model.js, lines 111-118):
when the password path is modified the stored password is replaced by
`bcrypt.hash(this.password, 10)`; otherwise the document is untouched. -/
def preSaveHashPassword (isModifiedPassword : Bool) (u : UserDoc) : UserDoc :=
  if isModifiedPassword then { u with password := bcryptHash 10 u.password } else u

/-- Modelled from the spec: a valid registration (`registerUser` in
user.controller.js, which is not under src/) creates exactly one User record
by saving a new document; saving runs the pre-save hook of
models/user.model.js (under src/) with the password path modified, then
appends the document to the store. -/
def saveNewUser (store : List UserDoc) (u : UserDoc) : List UserDoc :=
  store ++ [preSaveHashPassword true u]

/-- The token-issuing configuration read from `process.env`:
`ACCESS_TOKEN_SECRET`, `ACCESS_TOKEN_EXPIRY`, `REFRESH_TOKEN_SECRET`,
`REFRESH_TOKEN_EXPIRY`. -/
structure Env where
  accessTokenSecret : String
  accessTokenExpiry : String
  refreshTokenSecret : String
  refreshTokenExpiry : String
  deriving DecidableEq, Repr

/-- A token produced by `jwt.sign(payload, secret, { expiresIn })`, modelled
as the signing inputs: the claim list, the signing secret and the expiry
(the encoded/signed string itself is abstracted). -/
structure SignedToken where
  payload : List (String × String)
  secret : String
  expiresIn : String
  deriving DecidableEq, Repr

/-- Embedding of `userSchema.methods.generateAccessToken` (models/user.model.js, lines
127-141): signs `{_id, email, username, fullName}` with
`ACCESS_TOKEN_SECRET` and `ACCESS_TOKEN_EXPIRY`. -/
def generateAccessToken (env : Env) (u : UserDoc) : SignedToken :=
  { payload := [("_id", u.id), ("email", u.email),
                ("username", u.username), ("fullName", u.fullName)],
    secret := env.accessTokenSecret,
    expiresIn := env.accessTokenExpiry }

/-- Embedding of `userSchema.methods.generateRefreshToken` (models/user.model.js, lines
144-155): signs `{_id}` with `REFRESH_TOKEN_SECRET` and
`REFRESH_TOKEN_EXPIRY`. -/
def generateRefreshToken (env : Env) (u : UserDoc) : SignedToken :=
  { payload := [("_id", u.id)],
    secret := env.refreshTokenSecret,
    expiresIn := env.refreshTokenExpiry }

/-- The object `uploadOnCloudinary` resolves to on success; `url` is the
hosted image URL (`""` models a response object with a falsy `url`). A failed
upload resolves to `null`, modelled as `none` at each call site. -/
structure UploadResult where
  url : String
  deriving DecidableEq, Repr

/-- JavaScript `String.prototype.trim`: strips leading and trailing
whitespace. -/
def jsTrim (s : String) : String :=
  ⟨((s.data.dropWhile Char.isWhitespace).reverse.dropWhile Char.isWhitespace).reverse⟩

/-- The JavaScript guard of `addProduct`/`addEvent`
(`typeof field === 'string' && field.trim() === ""`): true only when the
field is PRESENT and trims to the empty string; an absent field
(`undefined`) is not a string and passes the guard. -/
def isPresentEmptyString : Option String → Bool
  | none => false
  | some s => jsTrim s = ""

/-- A document of the product (`Admin`) model as `addProduct` creates it:
the body fields are stored as supplied (absent fields stay absent). -/
structure ProductDoc where
  productName : Option String
  level : Option String
  ratioBetween : Option String
  price : Option String
  productImg : String
  deriving DecidableEq, Repr

/-- Embedding of `addProduct` (admin.controller.js, lines 27-59). Body fields and the
multer file path come from the request; `upload` is the result of
`uploadOnCloudinary(productImgPath)` (`none` = the upload resolved to null).
On success the created document is appended to the product store. -/
def addProduct (store : List ProductDoc)
    (productName level ratioBetween price : Option String)
    (productImgPath : Option String) (upload : Option UploadResult) :
    Outcome (List ProductDoc × ProductDoc) :=
  if [productName, level, ratioBetween].any isPresentEmptyString then
    Outcome.response 400 "All fields are required"
  else if jsFalsy productImgPath then
    Outcome.response 401 "Image path Required"
  else
    match upload with
    | none => Outcome.response 401 "erron in updlading file"
    | some obj =>
      let doc : ProductDoc :=
        { productName := productName, level := level, ratioBetween := ratioBetween,
          price := price, productImg := obj.url }
      Outcome.ok (store ++ [doc], doc)

/-- A document of the `Events` model. The schema fields are strings; the
controllers only store values that passed their guards. -/
structure EventDoc where
  id : String
  title : String
  startDate : String
  endDate : String
  description : String
  eventImg : String
  deriving DecidableEq, Repr

/-- Embedding of `addEvent` (admin.controller.js, lines 67-96): same empty-string guard as
`addProduct` over title/startDate/endDate/description, then a thrown
`ApiError(400, ...)` when the image path is missing or the upload resolved to
null. -/
def addEvent (store : List EventDoc) (newId : String)
    (title startDate endDate description : Option String)
    (eventImgPath : Option String) (upload : Option UploadResult) :
    Outcome (List EventDoc × EventDoc) :=
  if [title, startDate, endDate, description].any isPresentEmptyString then
    Outcome.response 400 "All fields are required"
  else if jsFalsy eventImgPath then
    Outcome.apiError 400 "Event Image is required"
  else
    match upload with
    | none => Outcome.apiError 400 "Event file is required"
    | some obj =>
      let doc : EventDoc :=
        { id := newId, title := title.getD "", startDate := startDate.getD "",
          endDate := endDate.getD "", description := description.getD "",
          eventImg := obj.url }
      Outcome.ok (store ++ [doc], doc)

/-- Embedding of `Events.findByIdAndUpdate(eventId, { $set: {...} }, { new: true })`:
sets the five fields on the (first) document whose `_id` matches and returns
the updated document, or `none` when no document matches. -/
def eventsFindByIdAndUpdate : List EventDoc → String → String → String → String → String →
    String → Option EventDoc × List EventDoc
  | [], _, _, _, _, _, _ => (none, [])
  | e :: rest, i, t, sd, ed, d, img =>
    if e.id = i then
      let e2 : EventDoc :=
        { e with
          title := t, startDate := sd, endDate := ed,
          description := d, eventImg := img }
      (some e2, e2 :: rest)
    else
      let p := eventsFindByIdAndUpdate rest i t sd ed d img
      (p.1, e :: p.2)

/-- Embedding of `updateEvent` (admin.controller.js, lines 203-230): falsy guards on the
id, the four text fields and the image path, then
`if (!eventImgObj.url)` — evaluated on the raw result of
`uploadOnCloudinary`, so a null result throws a TypeError (unhandled
JavaScript exception) before the UploadError branch can fire. A missing
target document is not checked: the 200 response carries a null document. -/
def updateEvent (store : List EventDoc) (eventId : Option String)
    (title startDate endDate description : Option String)
    (eventImgPath : Option String) (upload : Option UploadResult) :
    List EventDoc × Outcome (Option EventDoc) :=
  if jsFalsy eventId then
    (store, Outcome.apiError 400 "Event id not found")
  else if jsFalsy startDate ∨ jsFalsy endDate ∨ jsFalsy description ∨ jsFalsy title then
    (store, Outcome.apiError 400 "All Fields are required")
  else if jsFalsy eventImgPath then
    (store, Outcome.apiError 400 "Event image is missing")
  else
    match upload with
    | none =>
      (store, Outcome.jsError "TypeError: Cannot read properties of null (reading url)")
    | some obj =>
      if obj.url = "" then
        (store, Outcome.apiError 400 "Error while uploading Event Image")
      else
        let p := eventsFindByIdAndUpdate store (eventId.getD "") (title.getD "")
          (startDate.getD "") (endDate.getD "") (description.getD "") obj.url
        (p.2, Outcome.ok p.1)

/-- One registration in the admin route table: HTTP method, path, whether the
`verifyJWT` middleware is in the chain, and the controller name. -/
structure Route where
  method : String
  path : String
  usesVerifyJWT : Bool
  handler : String
  deriving DecidableEq, Repr

/-- The admin route table (routes/admin.routes.js, in registration order). -/
def adminRoutes : List Route :=
  [{ method := "GET", path := "/home", usesVerifyJWT := true, handler := "getHomeData" },
   { method := "POST", path := "/addProduct", usesVerifyJWT := true, handler := "addProduct" },
   { method := "POST", path := "/addEvent", usesVerifyJWT := true, handler := "addEvent" },
   { method := "GET", path := "/getAllProducts", usesVerifyJWT := true, handler := "getAllProduct" },
   { method := "POST", path := "/addslider", usesVerifyJWT := false, handler := "uploadSliderImage" },
   { method := "GET", path := "/getSliderImg", usesVerifyJWT := false, handler := "getSliderImages" },
   { method := "POST", path := "/updateslider", usesVerifyJWT := false, handler := "updateSliderImage" },
   { method := "DELETE", path := "/deleteslider", usesVerifyJWT := false, handler := "deleteSliderImage" },
   { method := "GET", path := "/getEventRecords", usesVerifyJWT := true, handler := "getEventRecords" },
   { method := "DELETE", path := "/deleteEvent", usesVerifyJWT := false, handler := "deleteEventRecord" },
   { method := "POST", path := "/updateEvent", usesVerifyJWT := true, handler := "updateEvent" },
   { method := "GET", path := "/getUserRecords", usesVerifyJWT := true, handler := "getUserRecords" },
   { method := "GET", path := "/withdrawalrequests", usesVerifyJWT := true, handler := "getAllUserWithdrawalsForAdmin" },
   { method := "POST", path := "/withdrawalrequest/status", usesVerifyJWT := true, handler := "updateWithdrawalStatusByAdmin" }]

/-! ### Helper lemmas about the store update -/

theorem findByIdAndUpdateStatus_found (store : List WithdrawalRequest) (i s : String)
    (w : WithdrawalRequest) (h : (findByIdAndUpdateStatus store i s).1 = some w) :
    ∃ v ∈ store, v.id = i ∧ w = { v with status := s } := by
  induction store with
  | nil => simp [findByIdAndUpdateStatus] at h
  | cons a rest ih =>
    by_cases ha : a.id = i
    · simp only [findByIdAndUpdateStatus, if_pos ha, Option.some.injEq] at h
      exact ⟨a, List.mem_cons_self a rest, ha, h.symm⟩
    · simp only [findByIdAndUpdateStatus, if_neg ha] at h
      obtain ⟨v, hv, hvi, hw⟩ := ih h
      exact ⟨v, List.mem_cons_of_mem a hv, hvi, hw⟩

theorem findByIdAndUpdateStatus_mem (store : List WithdrawalRequest) (i s : String)
    (w : WithdrawalRequest) (h : (findByIdAndUpdateStatus store i s).1 = some w) :
    w ∈ (findByIdAndUpdateStatus store i s).2 := by
  induction store with
  | nil => simp [findByIdAndUpdateStatus] at h
  | cons a rest ih =>
    by_cases ha : a.id = i
    · simp only [findByIdAndUpdateStatus, if_pos ha, Option.some.injEq] at h
      simp [findByIdAndUpdateStatus, if_pos ha, h]
    · simp only [findByIdAndUpdateStatus, if_neg ha] at h
      simp only [findByIdAndUpdateStatus, if_neg ha]
      exact List.mem_cons_of_mem a (ih h)

theorem findByIdAndUpdateStatus_preserves (store : List WithdrawalRequest) (i s : String)
    (v : WithdrawalRequest) (hv : v ∈ store) (hne : v.id ≠ i) :
    v ∈ (findByIdAndUpdateStatus store i s).2 := by
  induction store with
  | nil => simp at hv
  | cons a rest ih =>
    rcases List.mem_cons.mp hv with rfl | hv2
    · simp [findByIdAndUpdateStatus, if_neg hne]
    · by_cases ha : a.id = i
      · simp only [findByIdAndUpdateStatus, if_pos ha]
        exact List.mem_cons_of_mem _ hv2
      · simp only [findByIdAndUpdateStatus, if_neg ha]
        exact List.mem_cons_of_mem a (ih hv2)

theorem findByIdAndUpdateStatus_of_mem (store : List WithdrawalRequest) (i s : String)
    (hv : ∃ v ∈ store, v.id = i) :
    ∃ w, (findByIdAndUpdateStatus store i s).1 = some w ∧ w.id = i ∧ w.status = s := by
  induction store with
  | nil => simp at hv
  | cons a rest ih =>
    by_cases ha : a.id = i
    · exact ⟨{ a with status := s }, by simp [findByIdAndUpdateStatus, if_pos ha], ha, rfl⟩
    · obtain ⟨v, hv2, hvi⟩ := hv
      rcases List.mem_cons.mp hv2 with rfl | hv3
      · exact absurd hvi ha
      · obtain ⟨w, hw, hwi, hws⟩ := ih ⟨v, hv3, hvi⟩
        exact ⟨w, by simpa [findByIdAndUpdateStatus, if_neg ha] using hw, hwi, hws⟩

/-! ### Sample records used by witnesses and counterexamples -/

/-- A concrete withdrawal request with the given status. -/
def sampleWithdrawal (st : String) : WithdrawalRequest :=
  { id := "w1", address := "0xAA", amount := 100, finalAmount := 95,
    username := "alice", mobile := "9999999999", dateTime := 0, status := st }

/-- A concrete token-issuing configuration with distinct secrets/expiries. -/
def sampleEnv : Env :=
  { accessTokenSecret := "acc-secret", accessTokenExpiry := "1d",
    refreshTokenSecret := "ref-secret", refreshTokenExpiry := "10d" }

/-- A concrete user document. -/
def sampleUser : UserDoc :=
  { id := "u1", username := "alice", email := "alice@example.com", fullName := "Alice A",
    mobileNo := 9999999999, password := "pw123", sharedId := "s1", refreshToken := none,
    avatar := none, otp := none, otpValidity := none, currency := "USD" }

/-- A concrete successful Cloudinary upload result. -/
def sampleUpload : UploadResult := { url := "http://res.cloudinary.com/img.png" }

/-- A concrete stored event document. -/
def sampleEvent : EventDoc :=
  { id := "e1", title := "T", startDate := "2024-01-01", endDate := "2024-02-01",
    description := "D", eventImg := "http://res.cloudinary.com/old.png" }

/-- The product document `addProduct` persists when `product_name` is absent
from the body but the remaining fields and the upload are fine. -/
def c7Product : ProductDoc :=
  { productName := none, level := some "2", ratioBetween := some "1:2",
    price := some "100", productImg := "http://res.cloudinary.com/img.png" }

/-- The event document `addEvent` persists when `title` is absent from the
body: the stored title is the empty string. -/
def c7Event : EventDoc :=
  { id := "e9", title := "", startDate := "2024-01-01", endDate := "2024-02-01",
    description := "desc", eventImg := "http://res.cloudinary.com/img.png" }

/-! ### Claim theorems -/

/-- C1 (counterexample): it is NOT true that a withdrawal request in a
terminal state keeps its status across `updateWithdrawalStatusByAdmin`: an
`Approved` record is rewritten to `Cancelled by Admin`. -/
theorem C1_terminal_not_final_counterexample :
    ¬ (∀ (store newStore : List WithdrawalRequest) (w w2 : WithdrawalRequest)
        (i s : Option String) (r : Outcome WithdrawalRequest),
        w ∈ store → w.status ∈ terminalStatuses →
        updateWithdrawalStatusByAdmin store i s = (newStore, r) →
        w2 ∈ newStore → w2.id = w.id → w2.status = w.status) := by
  intro h
  have h2 := h [sampleWithdrawal "Approved"] [sampleWithdrawal "Cancelled by Admin"]
    (sampleWithdrawal "Approved") (sampleWithdrawal "Cancelled by Admin")
    (some "w1") (some "Cancelled by Admin")
    (Outcome.ok (sampleWithdrawal "Cancelled by Admin"))
    (by decide) (by decide) (by decide) (by decide) (by decide)
  exact absurd h2 (by decide)

/-- C1 (amended): `updateWithdrawalStatusByAdmin` succeeds only with target
status `Approved` or `Cancelled by Admin` and only on an existing record, but
it never inspects the record's current status: on success the matched
record's status is overwritten with the target value whatever it was before
(so `Pending` transitions to a terminal state, and terminal records are
rewritten just the same), while records with a different id are kept. -/
theorem C1_admin_update_overwrites_any_status (store newStore : List WithdrawalRequest)
    (i s : String) (w : WithdrawalRequest)
    (h : updateWithdrawalStatusByAdmin store (some i) (some s) = (newStore, Outcome.ok w)) :
    (s = "Approved" ∨ s = "Cancelled by Admin") ∧
    (∃ v ∈ store, v.id = i ∧ w = { v with status := s }) ∧
    w.status = s ∧ w ∈ newStore ∧
    ∀ v ∈ store, v.id ≠ i → v ∈ newStore := by
  unfold updateWithdrawalStatusByAdmin at h
  simp only [Option.getD_some] at h
  split at h
  · simp at h
  · split at h
    · simp at h
    · split at h
      · simp at h
      · rename_i hcond
        split at h
        · simp at h
        · rename_i w2 hfound
          simp only [Prod.mk.injEq, Outcome.ok.injEq] at h
          obtain ⟨hst, hw⟩ := h
          subst hw
          have hor : s = "Approved" ∨ s = "Cancelled by Admin" := by
            by_cases hA : s = "Approved"
            · exact Or.inl hA
            · by_cases hC : s = "Cancelled by Admin"
              · exact Or.inr hC
              · exact absurd ⟨hA, hC⟩ hcond
          obtain ⟨v, hv, hvi, hveq⟩ := findByIdAndUpdateStatus_found store i s w2 hfound
          refine ⟨hor, ⟨v, hv, hvi, hveq⟩, ?_, ?_, ?_⟩
          · rw [hveq]
          · rw [← hst]
            exact findByIdAndUpdateStatus_mem store i s w2 hfound
          · intro v2 hv2 hne
            rw [← hst]
            exact findByIdAndUpdateStatus_preserves store i s v2 hv2 hne

/-- C1 (witness): the amended theorem applied to a one-record store holding a
`Rejected` (terminal) request, which the admin call rewrites to `Approved`. -/
theorem C1_admin_update_overwrites_any_status_witness :
    ("Approved" = "Approved" ∨ "Approved" = "Cancelled by Admin") ∧
    (∃ v ∈ [sampleWithdrawal "Rejected"], v.id = "w1" ∧
      sampleWithdrawal "Approved" = { v with status := "Approved" }) ∧
    (sampleWithdrawal "Approved").status = "Approved" ∧
    sampleWithdrawal "Approved" ∈ [sampleWithdrawal "Approved"] ∧
    (∀ v ∈ [sampleWithdrawal "Rejected"], v.id ≠ "w1" →
      v ∈ [sampleWithdrawal "Approved"]) :=
  C1_admin_update_overwrites_any_status [sampleWithdrawal "Rejected"]
    [sampleWithdrawal "Approved"] "w1" "Approved" (sampleWithdrawal "Approved") (by decide)

/-- C2: the admin status update rejects every target status other than
`Approved` and `Cancelled by Admin` (including `Rejected` and `Pending`) with
a thrown 400 `ApiError`, leaving the store unchanged; with one of the two
accepted values and an existing target record it succeeds and sets that
record's status to the requested value. -/
theorem C2_admin_status_validation (store : List WithdrawalRequest) (i s : String) :
    (s ≠ "Approved" → s ≠ "Cancelled by Admin" →
      (updateWithdrawalStatusByAdmin store (some i) (some s)).1 = store ∧
      ∃ msg, (updateWithdrawalStatusByAdmin store (some i) (some s)).2 =
        Outcome.apiError 400 msg) ∧
    ((s = "Approved" ∨ s = "Cancelled by Admin") → i ≠ "" → (∃ v ∈ store, v.id = i) →
      ∃ w, (updateWithdrawalStatusByAdmin store (some i) (some s)).2 = Outcome.ok w ∧
        w.id = i ∧ w.status = s) := by
  constructor
  · intro hA hC
    by_cases hi : i = ""
    · subst hi
      exact ⟨rfl, _, rfl⟩
    · by_cases hs : s = ""
      · subst hs
        simp [updateWithdrawalStatusByAdmin, jsFalsy, hi]
      · simp [updateWithdrawalStatusByAdmin, jsFalsy, hi, hs, hA, hC]
  · intro hor hi hv
    obtain ⟨w, hw, hwi, hws⟩ := findByIdAndUpdateStatus_of_mem store i s hv
    refine ⟨w, ?_, hwi, hws⟩
    have hs : s ≠ "" := by
      rcases hor with rfl | rfl <;> decide
    rcases hor with rfl | rfl <;>
      simp [updateWithdrawalStatusByAdmin, jsFalsy, hi, hw]

/-- C2 (witness): `Rejected` is refused with a 400 error on an untouched
store, while `Approved` succeeds on the same one-record store. -/
theorem C2_admin_status_validation_witness :
    ((updateWithdrawalStatusByAdmin [sampleWithdrawal "Pending"] (some "w1")
        (some "Rejected")).1 = [sampleWithdrawal "Pending"] ∧
      ∃ msg, (updateWithdrawalStatusByAdmin [sampleWithdrawal "Pending"] (some "w1")
        (some "Rejected")).2 = Outcome.apiError 400 msg) ∧
    (∃ w, (updateWithdrawalStatusByAdmin [sampleWithdrawal "Pending"] (some "w1")
        (some "Approved")).2 = Outcome.ok w ∧ w.id = "w1" ∧ w.status = "Approved") :=
  ⟨(C2_admin_status_validation [sampleWithdrawal "Pending"] "w1" "Rejected").1
      (by decide) (by decide),
   (C2_admin_status_validation [sampleWithdrawal "Pending"] "w1" "Approved").2
      (Or.inl rfl) (by decide) ⟨sampleWithdrawal "Pending", by decide, by decide⟩⟩

/-- C3: the value `Cancelled by Admin` is NOT in the declared enum of
`withdrawalRequestSchema.status` (`['Pending', 'Approved', 'Rejected']`),
yet the admin status update successfully stores it (the update bypasses the
schema validators), so the stored record's status leaves the declared value
domain. -/
theorem C3_cancelled_by_admin_outside_schema_enum :
    "Cancelled by Admin" ∉ statusEnum ∧
    (updateWithdrawalStatusByAdmin [sampleWithdrawal "Pending"] (some "w1")
        (some "Cancelled by Admin")).2 =
      Outcome.ok (sampleWithdrawal "Cancelled by Admin") ∧
    sampleWithdrawal "Cancelled by Admin" ∈
      (updateWithdrawalStatusByAdmin [sampleWithdrawal "Pending"] (some "w1")
        (some "Cancelled by Admin")).1 ∧
    (sampleWithdrawal "Cancelled by Admin").status ∉ statusEnum := by decide

/-- C4: a withdrawal request created via `submit()` supplies no status, so
the schema default applies and the created record starts in `Pending`. -/
theorem C4_submit_starts_pending (id address : String) (amount finalAmount : Int)
    (username mobile : String) (now : Nat) :
    (submitWithdrawal id address amount finalAmount username mobile now).status =
      "Pending" := rfl

/-- C5: saving a new user (a registration) appends exactly one record to the
user store; the pre-save hook stores `bcrypt.hash(password, 10)` as the
password, which is never equal to the plaintext password. -/
theorem C5_registration_stores_bcrypt_hash (store : List UserDoc) (u : UserDoc) :
    (saveNewUser store u).length = store.length + 1 ∧
    saveNewUser store u = store ++ [{ u with password := bcryptHash 10 u.password }] ∧
    bcryptHash 10 u.password ≠ u.password := by
  refine ⟨by simp [saveNewUser], rfl, ?_⟩
  intro h
  have h7 : ("$2b$" ++ toString 10 ++ "$").length = 7 := rfl
  have hlen : (bcryptHash 10 u.password).length = 7 + u.password.length := by
    unfold bcryptHash
    rw [String.length_append, h7]
  rw [h] at hlen
  omega

/-- C6: the access token is signed over exactly the claims
`{_id, email, username, fullName}` with the access secret/expiry from the
environment, the refresh token over exactly `{_id}` with the refresh
secret/expiry; whenever the configuration supplies distinct secrets and
expiries, the two tokens use distinct secrets and distinct expiries. -/
theorem C6_token_payloads_and_config (env : Env) (u : UserDoc)
    (hsec : env.accessTokenSecret ≠ env.refreshTokenSecret)
    (hexp : env.accessTokenExpiry ≠ env.refreshTokenExpiry) :
    (generateAccessToken env u).payload =
      [("_id", u.id), ("email", u.email), ("username", u.username),
       ("fullName", u.fullName)] ∧
    (generateRefreshToken env u).payload = [("_id", u.id)] ∧
    (generateAccessToken env u).secret = env.accessTokenSecret ∧
    (generateRefreshToken env u).secret = env.refreshTokenSecret ∧
    (generateAccessToken env u).secret ≠ (generateRefreshToken env u).secret ∧
    (generateAccessToken env u).expiresIn = env.accessTokenExpiry ∧
    (generateRefreshToken env u).expiresIn = env.refreshTokenExpiry ∧
    (generateAccessToken env u).expiresIn ≠ (generateRefreshToken env u).expiresIn :=
  ⟨rfl, rfl, rfl, rfl, hsec, rfl, rfl, hexp⟩

/-- C6 (witness): the token theorem at a concrete user and a concrete
configuration with distinct secrets and expiries. -/
theorem C6_token_payloads_and_config_witness :
    (generateAccessToken sampleEnv sampleUser).payload =
      [("_id", sampleUser.id), ("email", sampleUser.email),
       ("username", sampleUser.username), ("fullName", sampleUser.fullName)] ∧
    (generateRefreshToken sampleEnv sampleUser).payload = [("_id", sampleUser.id)] ∧
    (generateAccessToken sampleEnv sampleUser).secret = sampleEnv.accessTokenSecret ∧
    (generateRefreshToken sampleEnv sampleUser).secret = sampleEnv.refreshTokenSecret ∧
    (generateAccessToken sampleEnv sampleUser).secret ≠
      (generateRefreshToken sampleEnv sampleUser).secret ∧
    (generateAccessToken sampleEnv sampleUser).expiresIn = sampleEnv.accessTokenExpiry ∧
    (generateRefreshToken sampleEnv sampleUser).expiresIn = sampleEnv.refreshTokenExpiry ∧
    (generateAccessToken sampleEnv sampleUser).expiresIn ≠
      (generateRefreshToken sampleEnv sampleUser).expiresIn :=
  C6_token_payloads_and_config sampleEnv sampleUser (by decide) (by decide)

/-- C7: the `typeof field === 'string'` guard of `addProduct`/`addEvent`
only fires on fields that are present and trim to the empty string: a request
with `product_name` absent sails past validation and persists a product with
no name (and a title-less event is persisted likewise), while a present
whitespace-only field is correctly rejected with a 400 response. -/
theorem C7_missing_field_bypasses_validation :
    addProduct [] none (some "2") (some "1:2") (some "100") (some "/tmp/p.png")
      (some sampleUpload) = Outcome.ok ([c7Product], c7Product) ∧
    addProduct [] (some " ") (some "2") (some "1:2") (some "100") (some "/tmp/p.png")
      (some sampleUpload) = Outcome.response 400 "All fields are required" ∧
    addEvent [] "e9" none (some "2024-01-01") (some "2024-02-01") (some "desc")
      (some "/tmp/e.png") (some sampleUpload) = Outcome.ok ([c7Event], c7Event) ∧
    c7Event.title = "" := by
  refine ⟨by decide, by decide, by decide, rfl⟩

/-- C8: when `uploadOnCloudinary` resolves to null, `addProduct` and
`addEvent` reach their upload-failure branches, but `updateEvent` evaluates
`eventImgObj.url` on the null result and dies with an unhandled TypeError
instead of reaching its `ApiError(400, "Error while uploading Event Image")`
branch; the event store is left unmodified. -/
theorem C8_updateEvent_null_upload_typeerror :
    updateEvent [sampleEvent] (some "e1") (some "T2") (some "2024-01-05")
        (some "2024-02-05") (some "D2") (some "/tmp/e.png") none =
      ([sampleEvent],
       Outcome.jsError "TypeError: Cannot read properties of null (reading url)") ∧
    addProduct [] (some "P") (some "2") (some "1:2") (some "9") (some "/tmp/p.png") none =
      Outcome.response 401 "erron in updlading file" ∧
    addEvent [] "e2" (some "T") (some "2024-01-01") (some "2024-02-01") (some "D")
      (some "/tmp/e.png") none = Outcome.apiError 400 "Event file is required" :=
  ⟨rfl, by decide, by decide⟩

/-- C9: the admin withdrawal listing answers 404 with an empty data list when
the store holds no requests, and 200 with the complete list otherwise. -/
theorem C9_admin_list_withdrawals (store : List WithdrawalRequest) :
    (store = [] → getAllUserWithdrawalsForAdmin store =
      { statusCode := 404, data := [], message := "No withdrawal requests found" }) ∧
    (store ≠ [] → (getAllUserWithdrawalsForAdmin store).statusCode = 200 ∧
      (getAllUserWithdrawalsForAdmin store).data = store) := by
  constructor
  · rintro rfl
    rfl
  · intro h
    have hlen : store.length ≠ 0 := by simpa using h
    simp [getAllUserWithdrawalsForAdmin, hlen]

/-- C9 (witness): the listing theorem at the empty store and at a one-record
store. -/
theorem C9_admin_list_withdrawals_witness :
    getAllUserWithdrawalsForAdmin [] =
      { statusCode := 404, data := [], message := "No withdrawal requests found" } ∧
    (getAllUserWithdrawalsForAdmin [sampleWithdrawal "Pending"]).statusCode = 200 ∧
    (getAllUserWithdrawalsForAdmin [sampleWithdrawal "Pending"]).data =
      [sampleWithdrawal "Pending"] :=
  ⟨(C9_admin_list_withdrawals []).1 rfl,
   (C9_admin_list_withdrawals [sampleWithdrawal "Pending"]).2 (by simp)⟩

/-- C10: in the admin route table exactly the four slider endpoints and
`DELETE /deleteEvent` are registered without the `verifyJWT` middleware;
every other admin route carries it. -/
theorem C10_unprotected_admin_routes :
    (adminRoutes.filter (fun r => !r.usesVerifyJWT)).map (fun r => (r.method, r.path)) =
      [("POST", "/addslider"), ("GET", "/getSliderImg"), ("POST", "/updateslider"),
       ("DELETE", "/deleteslider"), ("DELETE", "/deleteEvent")] ∧
    ∀ r ∈ adminRoutes,
      r.path ∉ ["/addslider", "/getSliderImg", "/updateslider", "/deleteslider",
        "/deleteEvent"] →
      r.usesVerifyJWT = true := by decide

end Mlm
